import Mathlib

/-!
Shallow embedding of the deployment reconciliation pipeline of
`src/provision/servicecommon/actions.go` (package `servicecommon`).

The `ServiceManager` backend interface, the label builder
(`provision.ServiceLabels`) and the image metadata store are external to
the source file; they are modelled as environments of pure functions, and
every backend call the pipeline issues is recorded in an explicit trace of
`Call` values, in the order the Go code issues them.  Errors are Go error
values, modelled as strings.
-/

set_option autoImplicit false

abbrev Err := String

deriving instance DecidableEq for Except

/-- `ProcessState` from actions.go: a requested per-process change.
Go zero values are the field defaults. -/
structure ProcessState where
  Stop : Bool := false
  Start : Bool := false
  Restart : Bool := false
  Sleep : Bool := false
  Increment : Int := 0
  deriving DecidableEq

/-- Modelled from the spec: the labels value exposed by the backend
adapter, with queryable accessors for replica count, restart count and the
stopped/asleep flags. -/
structure LabelSet where
  AppReplicas : Int
  Restarts : Int
  IsStopped : Bool
  IsAsleep : Bool
  deriving DecidableEq

/-- Setter `SetStopped` of the label namespace (wither-style value update). -/
def LabelSet.SetStopped (l : LabelSet) : LabelSet :=
  { l with IsStopped := true }

/-- Setter `SetAsleep` of the label namespace. -/
def LabelSet.SetAsleep (l : LabelSet) : LabelSet :=
  { l with IsAsleep := true }

/-- Setter `SetRestarts` of the label namespace. -/
def LabelSet.SetRestarts (l : LabelSet) (n : Int) : LabelSet :=
  { l with Restarts := n }

/-- One backend-adapter call issued by the pipeline (the trace alphabet):
`RemoveService`, `CurrentLabels` and `DeployService` of the
`ServiceManager` interface, with the fixed app argument dropped. -/
inductive Call where
  | removeService (processName : String)
  | currentLabels (processName : String)
  | deployService (processName : String) (labels : LabelSet) (replicas : Int) (img : String)
  deriving DecidableEq

/-- The `ServiceManager` interface of actions.go as a deterministic
environment: each method maps its arguments to the error it returns
(`none` = success); `CurrentLabels` returns `none` for a process with no
prior labels.  `labelBuildError` models the validation failure the label
builder `provision.ServiceLabels` may report for a process. -/
structure ServiceManager where
  RemoveService : String → Option Err
  CurrentLabels : String → Except Err (Option LabelSet)
  DeployService : String → LabelSet → Int → String → Option Err
  labelBuildError : String → Option Err

/-- Modelled from the spec: the Label Builder (`provision.ServiceLabels`),
which from the app identity, process name and replica count either fails
with a validation error or produces a labels value holding that replica
count (restart count and flags at their defaults). -/
def serviceLabels (m : ServiceManager) (processName : String) (replicas : Int) :
    Except Err LabelSet :=
  match m.labelBuildError processName with
  | some e => .error e
  | none => .ok { AppReplicas := replicas, Restarts := 0, IsStopped := false, IsAsleep := false }

/-- Replica count seeded from previous labels (`oldLabels.AppReplicas()`),
zero when the process had no prior labels. -/
def labelsReplicas : Option LabelSet → Int
  | none => 0
  | some l => l.AppReplicas

/-- Restart count seeded from previous labels. -/
def labelsRestarts : Option LabelSet → Int
  | none => 0
  | some l => l.Restarts

/-- Stopped flag seeded from previous labels. -/
def labelsStopped : Option LabelSet → Bool
  | none => false
  | some l => l.IsStopped

/-- Asleep flag seeded from previous labels. -/
def labelsAsleep : Option LabelSet → Bool
  | none => false
  | some l => l.IsAsleep

/-- `deployService` from actions.go: computes the effective runtime state
for one process and issues one `DeployService` call.  Returns the ordered
trace of backend calls together with the Go function's result. -/
def deployService (m : ServiceManager) (processName img : String) (pState : ProcessState) :
    List Call × Except Err Unit :=
  match m.CurrentLabels processName with
  | .error e => ([Call.currentLabels processName], .error e)
  | .ok oldLabels =>
    let replicas0 := labelsReplicas oldLabels + pState.Increment
    if pState.Increment ≠ 0 ∧ replicas0 < 0 then
      ([Call.currentLabels processName], .error "cannot have less than 0 units")
    else
      let started := pState.Start || pState.Restart
      let replicas := if started && (replicas0 == 0) then 1 else replicas0
      let isStopped := !started && labelsStopped oldLabels
      let isAsleep := !started && labelsAsleep oldLabels
      match serviceLabels m processName replicas with
      | .error e => ([Call.currentLabels processName], .error e)
      | .ok baseLabels =>
        let stopFlag := isStopped || pState.Stop
        let sleepFlag := isAsleep || pState.Sleep
        let realReplicas := if stopFlag then 0 else replicas
        let labels1 := if stopFlag then baseLabels.SetStopped else baseLabels
        let labels2 := if sleepFlag then labels1.SetAsleep else labels1
        let labels := if pState.Restart then labels2.SetRestarts (labelsRestarts oldLabels + 1) else labels2
        ([Call.currentLabels processName, Call.deployService processName labels realReplicas img],
         match m.DeployService processName labels realReplicas img with
         | some e => .error e
         | none => .ok ())

/-- `ProcessSpec` from actions.go: a map from process name to
`ProcessState`, as an association list with unique keys. -/
abbrev ProcessSpec := List (String × ProcessState)

/-- Go map lookup returning `none` for an absent key. -/
def lookupState : ProcessSpec → String → Option ProcessState
  | [], _ => none
  | (q, s) :: rest, p => if q = p then some s else lookupState rest p

/-- Go map indexing `spec[p]`, returning the zero `ProcessState` for an
absent key. -/
def findState (spec : ProcessSpec) (p : String) : ProcessState :=
  (lookupState spec p).getD {}

/-- The keys of a `ProcessSpec` (Go `for p := range spec`). -/
def specKeys (spec : ProcessSpec) : List String :=
  spec.map Prod.fst

/-- Lexicographic strict order on character lists (UTF-8 byte order of Go
strings coincides with code-point order). -/
def charListLt : List Char → List Char → Bool
  | [], [] => false
  | [], _ :: _ => true
  | _ :: _, [] => false
  | c :: cs, d :: ds => if c < d then true else if d < c then false else charListLt cs ds

/-- Lexicographic strict order on strings, as Go string comparison. -/
def stringLt (s t : String) : Bool := charListLt s.data t.data

/-- Insertion of a string into a lexicographically sorted list. -/
def insertSorted (s : String) : List String → List String
  | [] => [s]
  | t :: ts => if stringLt s t then s :: t :: ts else t :: insertSorted s ts

/-- `sort.Strings`: lexicographically ascending sort. -/
def sortStrings : List String → List String
  | [] => []
  | s :: ss => insertSorted s (sortStrings ss)

/-- `pipelineArgs` from actions.go (manager and app kept separate). -/
structure pipelineArgs where
  newImage : String
  newImageSpec : ProcessSpec
  currentImage : String
  currentImageSpec : ProcessSpec

/-- `rollbackAddedProcesses` from actions.go: compensation for an ordered
list of already-deployed processes.  A process present in the current
(pre-deployment) spec is re-deployed with the current image and its
current-spec state; any other process is removed.  Errors are logged and
ignored, so only the trace of calls is returned. -/
def rollbackAddedProcesses (m : ServiceManager) (args : pipelineArgs) :
    List String → List Call
  | [] => []
  | processName :: rest =>
    (match lookupState args.currentImageSpec processName with
     | some state => (deployService m processName args.currentImage state).1
     | none => [Call.removeService processName])
    ++ rollbackAddedProcesses m args rest

/-- The loop body of the `update-services` Forward function: deploy the
remaining processes in order, accumulating the successfully deployed
prefix; on the first failure, roll back that prefix and return the
original error. -/
def updateLoop (m : ServiceManager) (args : pipelineArgs) :
    List String → List String → List Call × Except Err (List String)
  | [], deployed => ([], .ok deployed)
  | processName :: rest, deployed =>
    let dr := deployService m processName args.newImage (findState args.newImageSpec processName)
    match dr.2 with
    | .error e => (dr.1 ++ rollbackAddedProcesses m args deployed, .error e)
    | .ok _ =>
      let next := updateLoop m args rest (deployed ++ [processName])
      (dr.1 ++ next.1, next.2)

/-- The Forward function of the `update-services` action: sort the keys of
the new spec and deploy each process in lexicographic order. -/
def updateServicesForward (m : ServiceManager) (args : pipelineArgs) :
    List Call × Except Err (List String) :=
  updateLoop m args (sortStrings (specKeys args.newImageSpec)) []

/-- Modelled from the spec: `set.FromMap`/`set.Difference` — the process
names present as keys in `current` but absent as keys in `new`. -/
def setDifference (xs ys : List String) : List String :=
  xs.filter (fun p => !(ys.contains p))

/-- The Forward function of the `remove-old-services` action: request
removal of every process in the set difference; each removal failure is
logged and ignored, so the action never fails and only the trace of
removal calls matters. -/
def removeOldServicesForward (args : pipelineArgs) : List Call :=
  (setDifference (specKeys args.currentImageSpec) (specKeys args.newImageSpec)).map
    Call.removeService

/-- Modelled from the spec: the Image Metadata Store — the current image
name of the app, the process names an image declares, and appending an
image to the app's history (`none` = success). -/
structure ImageEnv where
  appCurrentImageName : Except Err String
  imageProcesses : String → Except Err (List String)
  appendAppImageName : String → Option Err

/-- Modelled from the spec: the saga driver of the `action` package
applied to the three actions of actions.go.  Forward stages run in order;
a failure of `update-image-in-db` triggers the Backward function of
`update-services` (rollback of all deployed processes); `update-services`
handles its own failure internally and `remove-old-services` never fails. -/
def pipelineExecute (env : ImageEnv) (m : ServiceManager) (args : pipelineArgs) :
    List Call × Except Err Unit :=
  let fwA := updateServicesForward m args
  match fwA.2 with
  | .error e => (fwA.1, .error e)
  | .ok deployed =>
    match env.appendAppImageName args.newImage with
    | some e => (fwA.1 ++ rollbackAddedProcesses m args deployed, .error e)
    | none => (fwA.1 ++ removeOldServicesForward args, .ok ())

/-- The new-spec construction of `RunServicePipeline` (actions.go lines
63–69): every declared process gets `Start: true`, and when an override
map is supplied (non-nil) the Go map index `updateSpec[p]` replaces it —
the zero `ProcessState` when `p` has no entry. -/
def buildNewSpec (processes : List String) (updateSpec : Option ProcessSpec) : ProcessSpec :=
  processes.map fun p =>
    (p, match updateSpec with
        | none => { Start := true }
        | some u => (lookupState u p).getD {})

/-- `RunServicePipeline` from actions.go: read the current image and the
process sets of both images, reject a new image with no processes, build
the two specs and execute the three-stage pipeline. -/
def RunServicePipeline (env : ImageEnv) (m : ServiceManager) (newImg : String)
    (updateSpec : Option ProcessSpec) : List Call × Except Err Unit :=
  match env.appCurrentImageName with
  | .error e => ([], .error e)
  | .ok curImg =>
    match env.imageProcesses curImg with
    | .error e => ([], .error e)
    | .ok curProcs =>
      match env.imageProcesses newImg with
      | .error e => ([], .error e)
      | .ok newProcs =>
        if newProcs.isEmpty then
          ([], .error ("no process information found deploying image \"" ++ newImg ++ "\""))
        else
          pipelineExecute env m
            { newImage := newImg
              newImageSpec := buildNewSpec newProcs updateSpec
              currentImage := curImg
              currentImageSpec := curProcs.map (fun p => (p, {})) }

/-! Concrete backends, image environments and pipeline arguments used to
instantiate the theorems below on explicit inputs. -/

/-- Backend for the Stage-A failure scenario: deploying process `c` with
the new image fails, re-deploying `a` with the current image during
rollback also fails, and every removal fails — compensation errors must
all be ignored. -/
def mgrC1 : ServiceManager :=
  { RemoveService := fun _ => some "remove failed"
    CurrentLabels := fun _ => .ok none
    DeployService := fun p _ _ img =>
      if p = "c" && img = "imgNew" then some "boom"
      else if p = "a" && img = "imgCur" then some "rollback deploy failed"
      else none
    labelBuildError := fun _ => none }

/-- Pipeline arguments for the Stage-A failure scenario: new spec
`{a, b, c}`, current spec `{a}`. -/
def argsC1 : pipelineArgs :=
  { newImage := "imgNew"
    newImageSpec := [("a", { Start := true }), ("b", { Start := true }), ("c", { Start := true })]
    currentImage := "imgCur"
    currentImageSpec := [("a", {})] }

/-- Backend whose stored labels for every process carry replica count 2
and restart count 5. -/
def mgrC3 : ServiceManager :=
  { RemoveService := fun _ => none
    CurrentLabels := fun _ =>
      .ok (some { AppReplicas := 2, Restarts := 5, IsStopped := false, IsAsleep := false })
    DeployService := fun _ _ _ _ => none
    labelBuildError := fun _ => none }

/-- Pipeline arguments whose current (pre-deployment) spec contains only
process `p`. -/
def argsC3 : pipelineArgs :=
  { newImage := "imgNew"
    newImageSpec := [("p", { Start := true })]
    currentImage := "imgCur"
    currentImageSpec := [("p", {})] }

/-- Benign backend: no prior labels, every call succeeds. -/
def mgrC4 : ServiceManager :=
  { RemoveService := fun _ => none
    CurrentLabels := fun _ => .ok none
    DeployService := fun _ _ _ _ => none
    labelBuildError := fun _ => none }

/-- Image metadata where the current image declares `web` and every other
image declares no process. -/
def envC4 : ImageEnv :=
  { appCurrentImageName := .ok "imgCur"
    imageProcesses := fun i => if i = "imgCur" then .ok ["web"] else .ok []
    appendAppImageName := fun _ => none }

/-- Benign backend: no prior labels, every call succeeds. -/
def mgrC5 : ServiceManager :=
  { RemoveService := fun _ => none
    CurrentLabels := fun _ => .ok none
    DeployService := fun _ _ _ _ => none
    labelBuildError := fun _ => none }

/-- Benign backend: no prior labels, every call succeeds. -/
def mgrC6 : ServiceManager :=
  { RemoveService := fun _ => none
    CurrentLabels := fun _ => .ok none
    DeployService := fun _ _ _ _ => none
    labelBuildError := fun _ => none }

/-- Backend whose stored labels for every process are stopped with a
preserved desired replica count of 2. -/
def mgrC7 : ServiceManager :=
  { RemoveService := fun _ => none
    CurrentLabels := fun _ =>
      .ok (some { AppReplicas := 2, Restarts := 0, IsStopped := true, IsAsleep := false })
    DeployService := fun _ _ _ _ => none
    labelBuildError := fun _ => none }

/-- Image metadata where every image declares exactly process `p`. -/
def envC7 : ImageEnv :=
  { appCurrentImageName := .ok "imgCur"
    imageProcesses := fun _ => .ok ["p"]
    appendAppImageName := fun _ => none }

/-- Backend where removing process `b` fails and everything else
succeeds. -/
def mgrC8 : ServiceManager :=
  { RemoveService := fun q => if q = "b" then some "remove failed" else none
    CurrentLabels := fun _ => .ok none
    DeployService := fun _ _ _ _ => none
    labelBuildError := fun _ => none }

/-- Image metadata with a successful image-history append. -/
def envC8 : ImageEnv :=
  { appCurrentImageName := .ok "imgCur"
    imageProcesses := fun _ => .ok []
    appendAppImageName := fun _ => none }

/-- Pipeline arguments with current spec `{a, b, c}` and new spec
`{a, c}`. -/
def argsC8 : pipelineArgs :=
  { newImage := "imgNew"
    newImageSpec := [("a", { Start := true }), ("c", { Start := true })]
    currentImage := "imgCur"
    currentImageSpec := [("a", {}), ("b", {}), ("c", {})] }

/-- Backend whose stored labels for every process carry replica count 3,
not stopped. -/
def mgrC9 : ServiceManager :=
  { RemoveService := fun _ => none
    CurrentLabels := fun _ =>
      .ok (some { AppReplicas := 3, Restarts := 0, IsStopped := false, IsAsleep := false })
    DeployService := fun _ _ _ _ => none
    labelBuildError := fun _ => none }

/-- Backend whose stored labels for every process carry replica count 2,
not stopped, not asleep. -/
def mgrC10 : ServiceManager :=
  { RemoveService := fun _ => none
    CurrentLabels := fun _ =>
      .ok (some { AppReplicas := 2, Restarts := 0, IsStopped := false, IsAsleep := false })
    DeployService := fun _ _ _ _ => none
    labelBuildError := fun _ => none }

/-! Helper lemmas about the Stage-A loop and spec lookup. -/

/-- If every remaining deploy succeeds, the Stage-A loop issues the
deploys in list order and returns the accumulated deployed processes. -/
theorem updateLoop_all_ok (m : ServiceManager) (args : pipelineArgs) :
    ∀ (toDeploy deployed : List String),
      (∀ q ∈ toDeploy,
        (deployService m q args.newImage (findState args.newImageSpec q)).2 = .ok ()) →
      updateLoop m args toDeploy deployed =
        (toDeploy.flatMap
           (fun q => (deployService m q args.newImage (findState args.newImageSpec q)).1),
         .ok (deployed ++ toDeploy))
  | [], deployed, _ => by simp [updateLoop]
  | p :: rest, deployed, h => by
      have hp : (deployService m p args.newImage (findState args.newImageSpec p)).2 = .ok () :=
        h p (by simp)
      have ih := updateLoop_all_ok m args rest (deployed ++ [p])
        (fun q hq => h q (by simp [hq]))
      simp [updateLoop, hp, ih]

/-- If every deploy of `pre` succeeds and the deploy of `P` fails with
`e`, the Stage-A loop issues the deploys of `pre` in order, then the
failing deploy of `P`, then exactly the compensation of
`deployed ++ pre`, and returns `e`. -/
theorem updateLoop_fail (m : ServiceManager) (args : pipelineArgs) (P : String)
    (rest : List String) (e : Err)
    (hP : (deployService m P args.newImage (findState args.newImageSpec P)).2 = .error e) :
    ∀ (pre deployed : List String),
      (∀ q ∈ pre,
        (deployService m q args.newImage (findState args.newImageSpec q)).2 = .ok ()) →
      updateLoop m args (pre ++ P :: rest) deployed =
        (pre.flatMap
           (fun q => (deployService m q args.newImage (findState args.newImageSpec q)).1)
         ++ (deployService m P args.newImage (findState args.newImageSpec P)).1
         ++ rollbackAddedProcesses m args (deployed ++ pre),
         .error e)
  | [], deployed, _ => by simp [updateLoop, hP]
  | p :: pre, deployed, h => by
      have hp : (deployService m p args.newImage (findState args.newImageSpec p)).2 = .ok () :=
        h p (by simp)
      have ih := updateLoop_fail m args P rest e hP pre (deployed ++ [p])
        (fun q hq => h q (by simp [hq]))
      simp [updateLoop, hp, ih]

/-- Looking up a key of a spec built by mapping a state function over a
key list yields that function's value. -/
theorem lookupState_map_self (f : String → ProcessState) (procs : List String) (p : String)
    (hp : p ∈ procs) :
    lookupState (procs.map fun q => (q, f q)) p = some (f p) := by
  induction procs with
  | nil => cases hp
  | cons q rest ih =>
    by_cases h : q = p
    · subst h; simp [lookupState]
    · rcases List.mem_cons.mp hp with h2 | h2
      · exact absurd h2.symm h
      · simp [lookupState, h, ih h2]

/-- C1: in Stage A, if the sorted process list is `pre ++ P :: rest`,
every deploy in `pre` succeeds and the deploy of `P` fails with `e`, then
the stage issues exactly the deploys of `pre` in lexicographic order, the
failing deploy of `P`, and then the compensation of exactly `pre` in the
same order (no call touches `rest`); the stage returns `P`'s original
error `e`, whatever the backend answers during compensation. -/
theorem updateServices_prefix_failure_compensation (m : ServiceManager) (args : pipelineArgs)
    (pre : List String) (P : String) (rest : List String) (e : Err)
    (hsort : sortStrings (specKeys args.newImageSpec) = pre ++ P :: rest)
    (hpre : ∀ q ∈ pre,
      (deployService m q args.newImage (findState args.newImageSpec q)).2 = .ok ())
    (hP : (deployService m P args.newImage (findState args.newImageSpec P)).2 = .error e) :
    updateServicesForward m args =
      (pre.flatMap
         (fun q => (deployService m q args.newImage (findState args.newImageSpec q)).1)
       ++ (deployService m P args.newImage (findState args.newImageSpec P)).1
       ++ rollbackAddedProcesses m args pre,
       .error e) := by
  have h := updateLoop_fail m args P rest e hP pre [] hpre
  simpa [updateServicesForward, hsort] using h

/-- Witness for C1: with new spec `{a, b, c}`, `a` and `b` deploy
successfully, `c` fails with "boom"; the trace shows the two deploys, the
failing deploy of `c`, the re-deploy of pre-existing `a` with the current
image and the removal of brand-new `b` — and the returned error is
"boom" even though both compensation calls fail. -/
theorem updateServices_prefix_failure_compensation_witness :
    updateServicesForward mgrC1 argsC1 =
      ([Call.currentLabels "a",
        Call.deployService "a"
          { AppReplicas := 1, Restarts := 0, IsStopped := false, IsAsleep := false } 1 "imgNew",
        Call.currentLabels "b",
        Call.deployService "b"
          { AppReplicas := 1, Restarts := 0, IsStopped := false, IsAsleep := false } 1 "imgNew",
        Call.currentLabels "c",
        Call.deployService "c"
          { AppReplicas := 1, Restarts := 0, IsStopped := false, IsAsleep := false } 1 "imgNew",
        Call.currentLabels "a",
        Call.deployService "a"
          { AppReplicas := 0, Restarts := 0, IsStopped := false, IsAsleep := false } 0 "imgCur",
        Call.removeService "b"],
       .error "boom") := by
  rw [updateServices_prefix_failure_compensation mgrC1 argsC1 ["a", "b"] "c" [] "boom"
    (by decide) (by decide) (by decide)]
  decide

/-- C2 counterexample: with new processes `{a, b}` and a non-nil override
map containing only `a`, process `b` — for which no explicit override was
supplied — receives the zero `ProcessState`, not the `Start: true`
default the claim promises. -/
theorem newSpec_override_map_default_cex :
    lookupState (buildNewSpec ["a", "b"] (some [("a", { Stop := true })])) "b" = some {} ∧
    ({} : ProcessState) ≠ { Start := true } := by decide

/-- C2 amended: every declared process defaults to `Start: true` only
when no override map is supplied at all; when an override map is supplied
(non-nil), every process's state is the map lookup — the zero (empty)
`ProcessState` for a process with no entry. -/
theorem newSpec_default_and_override (procs : List String) (u : ProcessSpec) (p : String)
    (hp : p ∈ procs) :
    lookupState (buildNewSpec procs none) p = some { Start := true } ∧
    lookupState (buildNewSpec procs (some u)) p = some ((lookupState u p).getD {}) := by
  constructor
  · exact lookupState_map_self _ procs p hp
  · exact lookupState_map_self _ procs p hp

/-- Witness for C2 amended: process `b` of `{a, b}` gets `Start: true`
with no override map, and the zero state with an override map containing
only `a`. -/
theorem newSpec_default_and_override_witness :
    lookupState (buildNewSpec ["a", "b"] none) "b" = some { Start := true } ∧
    lookupState (buildNewSpec ["a", "b"] (some [("a", { Stop := true })])) "b" = some {} := by
  have h := newSpec_default_and_override ["a", "b"] [("a", { Stop := true })] "b" (by decide)
  exact ⟨h.1, h.2.trans (by decide)⟩

/-- C3 counterexample: process `p` existed before the run with restart
count 5 in its labels, yet compensation re-deploys it with labels whose
restart count is 0 — the pre-deployment restart count is not restored, so
the labels are not identical to what `CurrentLabels` returned. -/
theorem rollback_restart_count_not_restored_cex :
    mgrC3.CurrentLabels "p" =
      .ok (some { AppReplicas := 2, Restarts := 5, IsStopped := false, IsAsleep := false }) ∧
    rollbackAddedProcesses mgrC3 argsC3 ["p"] =
      [Call.currentLabels "p",
       Call.deployService "p"
         { AppReplicas := 2, Restarts := 0, IsStopped := false, IsAsleep := false } 2 "imgCur"] ∧
    (0 : Int) ≠ 5 := by decide

/-- C3 amended: compensation re-deploys a process of the current
(pre-deployment) spec — whose current-spec state is the empty one — with
the current image, restoring the replica count and the stopped/asleep
flags exactly as `CurrentLabels` reports them (replicas scaled to 0 when
stopped), but rebuilding the labels with restart count 0 rather than the
observed one; a process absent from the current spec is removed entirely,
not redeployed. -/
theorem rollback_redeploys_or_removes (m : ServiceManager) (args : pipelineArgs)
    (p : String) (L : LabelSet) :
    (lookupState args.currentImageSpec p = some {} →
      m.CurrentLabels p = .ok (some L) →
      m.labelBuildError p = none →
      rollbackAddedProcesses m args [p] =
        [Call.currentLabels p,
         Call.deployService p
           { AppReplicas := L.AppReplicas, Restarts := 0,
             IsStopped := L.IsStopped, IsAsleep := L.IsAsleep }
           (if L.IsStopped then 0 else L.AppReplicas) args.currentImage]) ∧
    (lookupState args.currentImageSpec p = none →
      rollbackAddedProcesses m args [p] = [Call.removeService p]) := by
  constructor
  · intro hin hcl hlbl
    simp only [rollbackAddedProcesses, hin]
    simp only [deployService, hcl, serviceLabels, hlbl]
    norm_num
    cases hst : L.IsStopped <;> cases hasl : L.IsAsleep <;>
      simp_all [labelsReplicas, labelsRestarts, labelsStopped, labelsAsleep,
        LabelSet.SetStopped, LabelSet.SetAsleep, LabelSet.SetRestarts]
  · intro hout
    simp [rollbackAddedProcesses, hout]

/-- Witness for C3 amended: pre-existing `p` (labels: 2 replicas, restart
count 5) is re-deployed with the current image, 2 replicas and restart
count 0; brand-new `q` is removed. -/
theorem rollback_redeploys_or_removes_witness :
    rollbackAddedProcesses mgrC3 argsC3 ["p"] =
      [Call.currentLabels "p",
       Call.deployService "p"
         { AppReplicas := 2, Restarts := 0, IsStopped := false, IsAsleep := false } 2 "imgCur"] ∧
    rollbackAddedProcesses mgrC3 argsC3 ["q"] = [Call.removeService "q"] := by
  refine ⟨((rollback_redeploys_or_removes mgrC3 argsC3 "p"
      { AppReplicas := 2, Restarts := 5, IsStopped := false, IsAsleep := false }).1
      (by decide) (by rfl) (by rfl)).trans (by decide),
    (rollback_redeploys_or_removes mgrC3 argsC3 "q"
      { AppReplicas := 0, Restarts := 0, IsStopped := false, IsAsleep := false }).2
      (by decide)⟩

/-- C4: when the new image declares zero processes, `RunServicePipeline`
fails with the precondition error and the backend-call trace is empty —
no deploy, remove or label-read call is issued. -/
theorem pipeline_rejects_empty_process_list (env : ImageEnv) (m : ServiceManager)
    (newImg : String) (us : Option ProcessSpec) (curImg : String) (curProcs : List String)
    (h1 : env.appCurrentImageName = .ok curImg)
    (h2 : env.imageProcesses curImg = .ok curProcs)
    (h3 : env.imageProcesses newImg = .ok []) :
    RunServicePipeline env m newImg us =
      ([], .error ("no process information found deploying image \"" ++ newImg ++ "\"")) := by
  simp [RunServicePipeline, h1, h2, h3]

/-- Witness for C4: a new image declaring no process is rejected with an
empty backend trace. -/
theorem pipeline_rejects_empty_process_list_witness :
    RunServicePipeline envC4 mgrC4 "imgNew" none =
      ([], .error ("no process information found deploying image \"" ++ "imgNew" ++ "\"")) :=
  pipeline_rejects_empty_process_list envC4 mgrC4 "imgNew" none "imgCur" ["web"]
    (by rfl) (by decide) (by decide)

/-- C5 counterexample: an `Increment` that would drive replicas below
zero fails with the invalid-scale error, but the backend label-read call
for that process has already been issued — the trace is not empty, so
"no backend call is made for that process" is false as stated. -/
theorem invalid_scale_backend_call_cex :
    deployService mgrC5 "web" "imgNew" { Increment := -1 } =
      ([Call.currentLabels "web"], .error "cannot have less than 0 units") ∧
    ([Call.currentLabels "web"] : List Call) ≠ [] := by decide

/-- C5 amended: when the requested `Increment` would drive the replica
count below zero, the deploy step fails with the invalid-scale error and
issues no deploy (or any further) call for that process — only the
label-read that preceded the check. -/
theorem invalid_scale_no_deploy_call (m : ServiceManager) (p img : String)
    (pState : ProcessState) (ol : Option LabelSet)
    (hcl : m.CurrentLabels p = .ok ol)
    (hinc : pState.Increment ≠ 0)
    (hneg : labelsReplicas ol + pState.Increment < 0) :
    deployService m p img pState =
      ([Call.currentLabels p], .error "cannot have less than 0 units") := by
  simp [deployService, hcl, hinc, hneg]

/-- Witness for C5 amended: `Increment: -1` on a process with no prior
labels fails with the invalid-scale error after only the label-read. -/
theorem invalid_scale_no_deploy_call_witness :
    deployService mgrC5 "web" "imgNew" { Increment := -1 } =
      ([Call.currentLabels "web"], .error "cannot have less than 0 units") :=
  invalid_scale_no_deploy_call mgrC5 "web" "imgNew" { Increment := -1 } none
    (by rfl) (by decide) (by decide)

/-- C6 counterexample: `Start: true` with `Increment: 2` on a process
with zero replicas yields 2 replicas post-merge, not 1 — the increment is
applied before the start rule, so "always yields replicas == 1 regardless
of the Increment value" is false as stated. -/
theorem start_with_increment_cex :
    (deployService mgrC6 "web" "imgNew" { Start := true, Increment := 2 }).1 =
      [Call.currentLabels "web",
       Call.deployService "web"
         { AppReplicas := 2, Restarts := 0, IsStopped := false, IsAsleep := false } 2 "imgNew"] ∧
    (2 : Int) ≠ 1 := by decide

/-- C6 amended: when the replica count after applying `Increment` is
zero, requesting `Start: true` or `Restart: true` yields exactly one
replica post-merge, and the previously-observed stopped and asleep flags
are cleared — the deployed labels carry only the flags the request itself
sets. -/
theorem start_restart_on_zero_replicas (m : ServiceManager) (p img : String)
    (pState : ProcessState) (ol : Option LabelSet)
    (hcl : m.CurrentLabels p = .ok ol)
    (hlbl : m.labelBuildError p = none)
    (hz : labelsReplicas ol + pState.Increment = 0)
    (hSR : pState.Start = true ∨ pState.Restart = true) :
    (deployService m p img pState).1 =
      [Call.currentLabels p,
       Call.deployService p
         { AppReplicas := 1,
           Restarts := if pState.Restart then labelsRestarts ol + 1 else 0,
           IsStopped := pState.Stop,
           IsAsleep := pState.Sleep }
         (if pState.Stop then 0 else 1) img] := by
  have hsr : (pState.Start || pState.Restart) = true := by
    rcases hSR with h | h <;> simp [h]
  have hscale : ¬(pState.Increment ≠ 0 ∧ labelsReplicas ol + pState.Increment < 0) := by
    simp [hz]
  simp only [deployService, hcl]
  rw [if_neg hscale]
  simp only [serviceLabels, hlbl, hz, hsr]
  cases hstop : pState.Stop <;> cases hsleep : pState.Sleep <;> cases hres : pState.Restart <;>
    simp_all [LabelSet.SetStopped, LabelSet.SetAsleep, LabelSet.SetRestarts]

/-- Witness for C6 amended: `Start: true` on a process with no prior
labels (zero replicas, zero increment) deploys exactly one replica with
clear flags. -/
theorem start_restart_on_zero_replicas_witness :
    (deployService mgrC6 "web" "imgNew" { Start := true }).1 =
      [Call.currentLabels "web",
       Call.deployService "web"
         { AppReplicas := 1, Restarts := 0, IsStopped := false, IsAsleep := false } 1 "imgNew"] := by
  have h := start_restart_on_zero_replicas mgrC6 "web" "imgNew" { Start := true } none
    (by rfl) (by rfl) (by decide) (Or.inl (by rfl))
  exact h.trans (by decide)

/-- C7 counterexample: process `p` is stopped prior to the run (labels:
2 desired replicas, stopped); a run with no override map at all deploys it
with `realReplicas == 2` and no stopped marker — the nil-override default
`Start: true` wakes the process, so "remains deployed with
realReplicas == 0" is false as stated. -/
theorem stopped_process_nil_override_cex :
    RunServicePipeline envC7 mgrC7 "imgNew" none =
      ([Call.currentLabels "p",
        Call.deployService "p"
          { AppReplicas := 2, Restarts := 0, IsStopped := false, IsAsleep := false } 2 "imgNew"],
       .ok ()) ∧
    (2 : Int) ≠ 0 := by decide

/-- C7 amended: in a run where an override map is supplied but contains
no entry for the process, the process's state in the new spec is the
empty one, and deploying a previously-stopped process with the empty
state issues a deploy with `realReplicas == 0`, the stopped marker set,
and the non-zero desired replica count preserved in the labels. -/
theorem stopped_process_empty_override (m : ServiceManager)
    (procs : List String) (u : ProcessSpec) (p img : String) (L : LabelSet)
    (hp : p ∈ procs) (hnu : lookupState u p = none)
    (hcl : m.CurrentLabels p = .ok (some L)) (hstopped : L.IsStopped = true)
    (_hnz : L.AppReplicas ≠ 0)
    (hlbl : m.labelBuildError p = none) :
    lookupState (buildNewSpec procs (some u)) p = some {} ∧
    (deployService m p img {}).1 =
      [Call.currentLabels p,
       Call.deployService p
         { AppReplicas := L.AppReplicas, Restarts := 0,
           IsStopped := true, IsAsleep := L.IsAsleep }
         0 img] := by
  constructor
  · have h := lookupState_map_self
      (fun q => (lookupState u q).getD {}) procs p hp
    simpa [buildNewSpec, hnu] using h
  · simp only [deployService, hcl, serviceLabels, hlbl]
    cases hasl : L.IsAsleep <;>
      simp_all [labelsReplicas, labelsRestarts, labelsStopped, labelsAsleep,
        LabelSet.SetStopped, LabelSet.SetAsleep, LabelSet.SetRestarts]

/-- Witness for C7 amended: stopped process `p` with desired replica
count 2, in a run whose override map mentions only `other`, keeps the
empty state and is deployed scaled to zero with the stopped marker and
`AppReplicas = 2` preserved in the labels. -/
theorem stopped_process_empty_override_witness :
    lookupState (buildNewSpec ["p"] (some [("other", { Stop := true })])) "p" = some {} ∧
    (deployService mgrC7 "p" "imgNew" {}).1 =
      [Call.currentLabels "p",
       Call.deployService "p"
         { AppReplicas := 2, Restarts := 0, IsStopped := true, IsAsleep := false } 0 "imgNew"] := by
  have h := stopped_process_empty_override mgrC7 ["p"] [("other", { Stop := true })] "p" "imgNew"
    { AppReplicas := 2, Restarts := 0, IsStopped := true, IsAsleep := false }
    (by decide) (by decide) (by rfl) (by rfl) (by decide) (by rfl)
  exact ⟨h.1, h.2.trans (by decide)⟩

/-- C8: when Stage A deploys every process successfully and the image
append succeeds, the pipeline succeeds whatever the backend answers to
the removal calls, Stage C's removal calls are appended to the trace,
and a removal call is issued for a process exactly when it is a key of
the current spec and not a key of the new spec. -/
theorem removeOld_exact_difference (env : ImageEnv) (m : ServiceManager)
    (args : pipelineArgs) (p : String)
    (hA : ∀ q ∈ sortStrings (specKeys args.newImageSpec),
      (deployService m q args.newImage (findState args.newImageSpec q)).2 = .ok ())
    (hB : env.appendAppImageName args.newImage = none) :
    (pipelineExecute env m args).2 = .ok () ∧
    (pipelineExecute env m args).1 =
      (updateServicesForward m args).1 ++ removeOldServicesForward args ∧
    (Call.removeService p ∈ removeOldServicesForward args ↔
      (p ∈ specKeys args.currentImageSpec ∧ p ∉ specKeys args.newImageSpec)) := by
  have hok := updateLoop_all_ok m args (sortStrings (specKeys args.newImageSpec)) [] hA
  refine ⟨?_, ?_, ?_⟩
  · simp [pipelineExecute, updateServicesForward, hok, hB]
  · simp [pipelineExecute, updateServicesForward, hok, hB]
  · simp [removeOldServicesForward, setDifference, List.mem_filter, List.mem_map]

/-- Witness for C8: current spec `{a, b, c}`, new spec `{a, c}`; the run
succeeds although removing `b` fails, and the removal call for `b` is
issued exactly because `b` is in the current spec and not in the new
one. -/
theorem removeOld_exact_difference_witness :
    (pipelineExecute envC8 mgrC8 argsC8).2 = .ok () ∧
    (pipelineExecute envC8 mgrC8 argsC8).1 =
      (updateServicesForward mgrC8 argsC8).1 ++ removeOldServicesForward argsC8 ∧
    (Call.removeService "b" ∈ removeOldServicesForward argsC8 ↔
      ("b" ∈ specKeys argsC8.currentImageSpec ∧ "b" ∉ specKeys argsC8.newImageSpec)) :=
  removeOld_exact_difference envC8 mgrC8 argsC8 "b" (by decide) (by rfl)

/-- C9: a requested `Stop: true` always forces the issued deploy call to
`realReplicas = 0` with the stopped marker set on the labels, even when
`Start` or `Restart` is requested in the same state — the deployed
replica-count label still reflects the merged count, but the actual scale
is zero. -/
theorem stop_forces_zero_real_replicas (m : ServiceManager) (p img : String)
    (pState : ProcessState) (ol : Option LabelSet)
    (hcl : m.CurrentLabels p = .ok ol)
    (hstop : pState.Stop = true)
    (hlbl : m.labelBuildError p = none)
    (hscale : ¬(pState.Increment ≠ 0 ∧ labelsReplicas ol + pState.Increment < 0)) :
    (deployService m p img pState).1 =
      [Call.currentLabels p,
       Call.deployService p
         { AppReplicas := if (pState.Start || pState.Restart) &&
                             (labelsReplicas ol + pState.Increment == 0)
                          then 1 else labelsReplicas ol + pState.Increment,
           Restarts := if pState.Restart then labelsRestarts ol + 1 else 0,
           IsStopped := true,
           IsAsleep := (!(pState.Start || pState.Restart) && labelsAsleep ol) || pState.Sleep }
         0 img] := by
  simp only [deployService, hcl]
  rw [if_neg hscale]
  simp only [serviceLabels, hlbl, hstop]
  cases hst : pState.Start <;> cases hres : pState.Restart <;>
    cases hsl : pState.Sleep <;> cases hasl : labelsAsleep ol <;>
      simp_all [LabelSet.SetStopped, LabelSet.SetAsleep, LabelSet.SetRestarts]

/-- Witness for C9: `Stop: true` together with `Start: true` on a process
with 3 replicas deploys with `realReplicas = 0` and the stopped marker. -/
theorem stop_forces_zero_real_replicas_witness :
    (deployService mgrC9 "web" "imgNew" { Stop := true, Start := true }).1 =
      [Call.currentLabels "web",
       Call.deployService "web"
         { AppReplicas := 3, Restarts := 0, IsStopped := true, IsAsleep := false } 0 "imgNew"] := by
  have h := stop_forces_zero_real_replicas mgrC9 "web" "imgNew" { Stop := true, Start := true }
    (some { AppReplicas := 3, Restarts := 0, IsStopped := false, IsAsleep := false })
    (by rfl) (by rfl) (by rfl) (by decide)
  exact h.trans (by decide)

/-- C10: requesting `Sleep: true` without `Stop` on a process not already
marked stopped only marks the asleep label: the issued deploy call
receives the computed replica count unchanged (not zero) and no stopped
marker. -/
theorem sleep_marks_without_scaling_down (m : ServiceManager) (p img : String)
    (pState : ProcessState) (ol : Option LabelSet)
    (hcl : m.CurrentLabels p = .ok ol)
    (hsleep : pState.Sleep = true)
    (hstop : pState.Stop = false)
    (hns : labelsStopped ol = false)
    (hlbl : m.labelBuildError p = none)
    (hscale : ¬(pState.Increment ≠ 0 ∧ labelsReplicas ol + pState.Increment < 0)) :
    (deployService m p img pState).1 =
      [Call.currentLabels p,
       Call.deployService p
         { AppReplicas := if (pState.Start || pState.Restart) &&
                             (labelsReplicas ol + pState.Increment == 0)
                          then 1 else labelsReplicas ol + pState.Increment,
           Restarts := if pState.Restart then labelsRestarts ol + 1 else 0,
           IsStopped := false,
           IsAsleep := true }
         (if (pState.Start || pState.Restart) &&
             (labelsReplicas ol + pState.Increment == 0)
          then 1 else labelsReplicas ol + pState.Increment) img] := by
  simp only [deployService, hcl]
  rw [if_neg hscale]
  simp only [serviceLabels, hlbl, hsleep, hstop, hns]
  cases hst : pState.Start <;> cases hres : pState.Restart <;>
    simp_all [LabelSet.SetStopped, LabelSet.SetAsleep, LabelSet.SetRestarts]

/-- Witness for C10: `Sleep: true` on a running process with 2 replicas
deploys 2 real replicas with the asleep label and no stopped marker. -/
theorem sleep_marks_without_scaling_down_witness :
    (deployService mgrC10 "web" "imgNew" { Sleep := true }).1 =
      [Call.currentLabels "web",
       Call.deployService "web"
         { AppReplicas := 2, Restarts := 0, IsStopped := false, IsAsleep := true } 2 "imgNew"] := by
  have h := sleep_marks_without_scaling_down mgrC10 "web" "imgNew" { Sleep := true }
    (some { AppReplicas := 2, Restarts := 0, IsStopped := false, IsAsleep := false })
    (by rfl) (by rfl) (by rfl) (by rfl) (by rfl) (by decide)
  exact h.trans (by decide)
